import Mathlib

/-!
Shallow embedding of the procurement decision logic of `procurement.py`
(class `ProcurementAgents` and the pure decision parts of
`StreamlitProcurementWorkflow`).  Money amounts, prices and ratings are
modelled as rationals, quantities and stock counts as naturals, Python dict
lookups with a default as total functions given by the same key chains, and
the returned dicts as structures.  UI rendering, progress bars, timestamps
and the request id are outside the decision logic and are not modelled.
-/

/-- Python `str.lower()` as used on the ASCII dict keys: lower-case every
character of the string. -/
def pyLower (s : String) : String := ⟨s.data.map Char.toLower⟩

/-- A supplier offer record from the static per-item catalog `suppliers_db`. -/
structure SupplierOffer where
  name : String
  price : ℚ
  availability : ℕ
  lead_time : ℕ
  rating : ℚ
  deriving DecidableEq, Repr

/-- The static supplier catalog in `find_suppliers`; `.get(item.lower(), [])`. -/
def suppliers_db (item : String) : List SupplierOffer :=
  if item = "laptops" then
    [⟨"TechCorp", 899.99, 50, 5, 4.5⟩,
     ⟨"ElectroSupply", 849.99, 30, 7, 4.2⟩,
     ⟨"BusinessTech", 879.99, 100, 3, 4.7⟩]
  else if item = "office_chairs" then
    [⟨"OfficePro", 249.99, 200, 10, 4.3⟩,
     ⟨"ComfortSeating", 199.99, 150, 14, 4.0⟩,
     ⟨"ErgoFurniture", 299.99, 75, 7, 4.6⟩]
  else if item = "printers" then
    [⟨"PrintTech", 459.99, 25, 5, 4.4⟩,
     ⟨"OfficePrint", 429.99, 40, 8, 4.1⟩,
     ⟨"ReliablePrint", 489.99, 15, 3, 4.8⟩]
  else if item = "monitors" then
    [⟨"DisplayTech", 329.99, 60, 6, 4.5⟩,
     ⟨"ScreenSupply", 299.99, 45, 9, 4.2⟩,
     ⟨"ViewPro", 349.99, 30, 4, 4.7⟩]
  else []

/-- Result dict of `ProcurementAgents.find_suppliers`. -/
structure FindSuppliersResult where
  item : String
  quantity_requested : ℕ
  suppliers : List SupplierOffer
  total_suppliers_found : ℕ
  deriving DecidableEq, Repr

/-- `ProcurementAgents.find_suppliers`: filter the catalog of `item.lower()`
to the offers with `availability >= quantity`. -/
def find_suppliers (item : String) (quantity : ℕ) : FindSuppliersResult :=
  let available_suppliers := suppliers_db (pyLower item)
  let suitable_suppliers := available_suppliers.filter (fun s => quantity ≤ s.availability)
  { item := item
    quantity_requested := quantity
    suppliers := suitable_suppliers
    total_suppliers_found := suitable_suppliers.length }

/-- A per-department row of the budget table in `check_budget_availability`. -/
structure BudgetStatus where
  total : ℚ
  used : ℚ
  remaining : ℚ
  deriving DecidableEq, Repr

/-- The static `department_budgets` table; `.get(department, {0,0,0})`. -/
def department_budgets (department : String) : BudgetStatus :=
  if department = "IT" then ⟨50000, 23000, 27000⟩
  else if department = "HR" then ⟨25000, 12000, 13000⟩
  else if department = "Marketing" then ⟨35000, 18000, 17000⟩
  else if department = "Operations" then ⟨75000, 45000, 30000⟩
  else if department = "Finance" then ⟨40000, 15000, 25000⟩
  else ⟨0, 0, 0⟩

/-- The keys present in the `department_budgets` dict. -/
def budget_table_departments : List String :=
  ["IT", "HR", "Marketing", "Operations", "Finance"]

/-- Result dict of `ProcurementAgents.check_budget_availability`. -/
structure BudgetCheckResult where
  department : String
  requested_amount : ℚ
  budget_status : BudgetStatus
  approved : Bool
  shortfall : ℚ
  utilization_rate : ℚ
  deriving DecidableEq, Repr

/-- `ProcurementAgents.check_budget_availability`. -/
def check_budget_availability (department : String) (amount : ℚ) : BudgetCheckResult :=
  let budget := department_budgets department
  { department := department
    requested_amount := amount
    budget_status := budget
    approved := decide (amount ≤ budget.remaining)
    shortfall := max 0 (amount - budget.remaining)
    utilization_rate := if 0 < budget.total then budget.used / budget.total else 0 }

/-- Successful result dict of `ProcurementAgents.optimize_cost`. -/
structure CostOptimization where
  recommended_supplier : String
  unit_price : ℚ
  total_cost : ℚ
  quantity : ℕ
  potential_savings : ℚ
  lead_time : ℕ
  supplier_rating : ℚ
  deriving DecidableEq, Repr

/-- Return value of `optimize_cost`: either the error dict
`{"error": "No suppliers available"}` or the recommendation dict. -/
inductive OptimizeCostResult where
  | error (msg : String)
  | ok (r : CostOptimization)
  deriving DecidableEq, Repr

/-- Python `min(xs, key)` starting from a first element: the accumulator is
replaced only when the key is strictly smaller, so the first minimal element
wins. -/
def pyMinBy {α : Type} (key : α → ℚ) (x : α) (xs : List α) : α :=
  xs.foldl (fun b y => if key y < key b then y else b) x

/-- Python `max(xs, key)` starting from a first element: the accumulator is
replaced only when the key is strictly larger, so the first maximal element
wins. -/
def pyMaxBy {α : Type} (key : α → ℚ) (x : α) (xs : List α) : α :=
  xs.foldl (fun b y => if key b < key y then y else b) x

/-- The selection key `x["price"] / x["rating"]` used by `optimize_cost`. -/
def priceOverRating (s : SupplierOffer) : ℚ := s.price / s.rating

/-- `ProcurementAgents.optimize_cost`. -/
def optimize_cost : List SupplierOffer → ℕ → OptimizeCostResult
  | [], _ => .error "No suppliers available"
  | x :: xs, quantity =>
    let best_option := pyMinBy priceOverRating x xs
    let most_expensive := pyMaxBy (fun s => s.price) x xs
    .ok { recommended_supplier := best_option.name
          unit_price := best_option.price
          total_cost := best_option.price * quantity
          quantity := quantity
          potential_savings := (most_expensive.price - best_option.price) * quantity
          lead_time := best_option.lead_time
          supplier_rating := best_option.rating }

/-- A per-department row of the `approval_matrix` in `check_approval_required`. -/
structure ApprovalLimits where
  manager : ℚ
  director : ℚ
  vp : ℚ
  deriving DecidableEq, Repr

/-- The static `approval_matrix`; `.get(department, {1000, 5000, 15000})`. -/
def approvalLimitsFor (department : String) : ApprovalLimits :=
  if department = "IT" then ⟨5000, 15000, 50000⟩
  else if department = "HR" then ⟨3000, 10000, 25000⟩
  else if department = "Marketing" then ⟨2000, 8000, 20000⟩
  else if department = "Operations" then ⟨10000, 25000, 75000⟩
  else if department = "Finance" then ⟨7500, 20000, 60000⟩
  else ⟨1000, 5000, 15000⟩

/-- The keys present in the `approval_matrix` dict. -/
def approval_matrix_departments : List String :=
  ["IT", "HR", "Marketing", "Operations", "Finance"]

/-- Result dict of `ProcurementAgents.check_approval_required`. -/
structure ApprovalCheckResult where
  amount : ℚ
  department : String
  required_approval : String
  approval_limits : ApprovalLimits
  estimated_approval_time : String
  auto_approved : Bool
  deriving DecidableEq, Repr

/-- `ProcurementAgents.check_approval_required`: the tier ladder over the
department limits; `auto_approved = amount <= limits["manager"]`. -/
def check_approval_required (amount : ℚ) (department : String) : ApprovalCheckResult :=
  let limits := approvalLimitsFor department
  let required_approval :=
    if amount ≤ limits.manager then "Manager"
    else if amount ≤ limits.director then "Director"
    else if amount ≤ limits.vp then "VP"
    else "CEO"
  let approval_time :=
    if amount ≤ limits.manager then "1-2 days"
    else if amount ≤ limits.director then "3-5 days"
    else if amount ≤ limits.vp then "5-7 days"
    else "7-14 days"
  { amount := amount
    department := department
    required_approval := required_approval
    approval_limits := limits
    estimated_approval_time := approval_time
    auto_approved := decide (amount ≤ limits.manager) }

/-- A per-item row of the `inventory_db` table in `check_inventory`. -/
structure InventoryRecord where
  current : ℕ
  minimum : ℕ
  maximum : ℕ
  on_order : ℕ
  deriving DecidableEq, Repr

/-- The static `inventory_db`; `.get(item.lower(), {0,0,0,0})`. -/
def inventory_db (item : String) : InventoryRecord :=
  if item = "laptops" then ⟨15, 25, 100, 10⟩
  else if item = "office_chairs" then ⟨45, 30, 200, 0⟩
  else if item = "printers" then ⟨8, 15, 50, 5⟩
  else if item = "monitors" then ⟨22, 20, 80, 0⟩
  else ⟨0, 0, 0, 0⟩

/-- The keys present in the `inventory_db` dict. -/
def inventory_db_items : List String :=
  ["laptops", "office_chairs", "printers", "monitors"]

/-- Result dict of `ProcurementAgents.check_inventory`. -/
structure InventoryCheckResult where
  item : String
  current_stock : ℕ
  minimum_required : ℕ
  maximum_capacity : ℕ
  on_order : ℕ
  reorder_needed : Bool
  suggested_order_quantity : ℤ
  stock_status : String
  stock_level_percentage : ℚ
  deriving DecidableEq, Repr

/-- `ProcurementAgents.check_inventory`. -/
def check_inventory (item : String) : InventoryCheckResult :=
  let inventory := inventory_db (pyLower item)
  let reorder_needed := decide (inventory.current + inventory.on_order < inventory.minimum)
  { item := item
    current_stock := inventory.current
    minimum_required := inventory.minimum
    maximum_capacity := inventory.maximum
    on_order := inventory.on_order
    reorder_needed := reorder_needed
    suggested_order_quantity :=
      max 0 ((inventory.minimum : ℤ) - inventory.current - inventory.on_order)
    stock_status := if reorder_needed then "Low" else "Adequate"
    stock_level_percentage :=
      if 0 < inventory.maximum then ((inventory.current : ℚ) / inventory.maximum) * 100 else 0 }

/-- `StreamlitProcurementWorkflow._determine_status`, the four-branch rule of
the source. -/
def determine_status (budget : BudgetCheckResult) (approval : ApprovalCheckResult)
    (inventory : InventoryCheckResult) : String :=
  if !budget.approved then "rejected"
  else if inventory.reorder_needed && approval.auto_approved then "approved"
  else if !approval.auto_approved then "pending_approval"
  else "approved"

/-- The simplified three-case status rule stated by the specification:
rejected when the budget is not approved, otherwise approved exactly when
auto-approved, otherwise pending. -/
def simplified_status (budget : BudgetCheckResult) (approval : ApprovalCheckResult) : String :=
  if !budget.approved then "rejected"
  else if approval.auto_approved then "approved"
  else "pending_approval"

/-- The decision-relevant fields of the request dict built by the form. -/
structure ProcurementRequest where
  item : String
  quantity : ℕ
  department : String
  deriving DecidableEq, Repr

/-- `cost_optimization.get("total_cost", 0)` as used by `process_request`:
the error dict has no `total_cost` key, so it yields the default 0. -/
def totalCostOrZero : OptimizeCostResult → ℚ
  | .error _ => 0
  | .ok r => r.total_cost

/-- The decision fields of the result dict of `process_request`. -/
structure ProcessResult where
  inventory_analysis : InventoryCheckResult
  supplier_analysis : FindSuppliersResult
  cost_optimization : OptimizeCostResult
  budget_validation : BudgetCheckResult
  approval_requirements : ApprovalCheckResult
  overall_status : String
  deriving DecidableEq, Repr

/-- `StreamlitProcurementWorkflow.process_request`, restricted to its decision
logic: the five agent calls and the status determination (progress-bar UI,
request id, timestamp and the recommendation messages are not modelled). -/
def process_request (request : ProcurementRequest) : ProcessResult :=
  let inventory_check := check_inventory request.item
  let suppliers := find_suppliers request.item request.quantity
  let cost_optimization := optimize_cost suppliers.suppliers request.quantity
  let budget_check := check_budget_availability request.department
    (totalCostOrZero cost_optimization)
  let approval_check := check_approval_required (totalCostOrZero cost_optimization)
    request.department
  { inventory_analysis := inventory_check
    supplier_analysis := suppliers
    cost_optimization := cost_optimization
    budget_validation := budget_check
    approval_requirements := approval_check
    overall_status := determine_status budget_check approval_check inventory_check }

/-- Rank of an approval tier in the order Manager < Director < VP < CEO. -/
def tierRank : String → ℕ
  | "Manager" => 0
  | "Director" => 1
  | "VP" => 2
  | "CEO" => 3
  | _ => 4

/-! Fold lemmas for the Python `min`/`max` accumulators. -/

theorem pyMinBy_cons {α : Type} (key : α → ℚ) (x z : α) (zs : List α) :
    pyMinBy key x (z :: zs) = pyMinBy key (if key z < key x then z else x) zs := rfl

theorem pyMinBy_mem {α : Type} (key : α → ℚ) (x : α) (xs : List α) :
    pyMinBy key x xs ∈ x :: xs := by
  induction xs generalizing x with
  | nil => simp [pyMinBy]
  | cons z zs ih =>
    rw [pyMinBy_cons]
    by_cases hc : key z < key x
    · have h := ih z
      rw [if_pos hc]
      simp only [List.mem_cons] at h ⊢
      tauto
    · have h := ih x
      rw [if_neg hc]
      simp only [List.mem_cons] at h ⊢
      tauto

theorem pyMinBy_le {α : Type} (key : α → ℚ) (x : α) (xs : List α) :
    ∀ y ∈ x :: xs, key (pyMinBy key x xs) ≤ key y := by
  induction xs generalizing x with
  | nil =>
    intro y hy
    simp only [List.mem_cons, List.not_mem_nil, or_false] at hy
    subst hy
    simp [pyMinBy]
  | cons z zs ih =>
    intro y hy
    rw [pyMinBy_cons]
    by_cases hc : key z < key x
    · rw [if_pos hc]
      have hzx : key z ≤ key x := le_of_lt hc
      have hhead : key (pyMinBy key z zs) ≤ key z := ih z z (List.mem_cons_self z zs)
      rcases List.mem_cons.1 hy with h1 | h1
      · exact h1 ▸ le_trans hhead hzx
      · rcases List.mem_cons.1 h1 with h2 | h2
        · exact h2 ▸ hhead
        · exact ih z y (List.mem_cons_of_mem z h2)
    · rw [if_neg hc]
      have hxz : key x ≤ key z := not_lt.1 hc
      have hhead : key (pyMinBy key x zs) ≤ key x := ih x x (List.mem_cons_self x zs)
      rcases List.mem_cons.1 hy with h1 | h1
      · exact h1 ▸ hhead
      · rcases List.mem_cons.1 h1 with h2 | h2
        · exact h2 ▸ le_trans hhead hxz
        · exact ih x y (List.mem_cons_of_mem x h2)

theorem pyMinBy_eq_or_lt {α : Type} (key : α → ℚ) (x : α) (xs : List α) :
    pyMinBy key x xs = x ∨ key (pyMinBy key x xs) < key x := by
  induction xs generalizing x with
  | nil => exact Or.inl rfl
  | cons z zs ih =>
    rw [pyMinBy_cons]
    by_cases hc : key z < key x
    · rw [if_pos hc]
      rcases ih z with h | h
      · exact Or.inr (by rw [h]; exact hc)
      · exact Or.inr (lt_trans h hc)
    · rw [if_neg hc]
      exact ih x

theorem pyMinBy_find_aux {α : Type} (key : α → ℚ) (x : α) (xs : List α)
    (h : key (pyMinBy key x xs) < key x) :
    xs.find? (fun y => decide (key y ≤ key (pyMinBy key x xs))) = some (pyMinBy key x xs) := by
  induction xs generalizing x with
  | nil => simp [pyMinBy] at h
  | cons z zs ih =>
    rw [pyMinBy_cons] at h ⊢
    by_cases hc : key z < key x
    · rw [if_pos hc] at h ⊢
      rcases pyMinBy_eq_or_lt key z zs with he | hlt
      · rw [he]
        rw [List.find?_cons_of_pos]
        simp
      · rw [List.find?_cons_of_neg, ih z hlt]
        simp only [decide_eq_true_eq, not_le]
        exact hlt
    · rw [if_neg hc] at h ⊢
      have hxz : key x ≤ key z := not_lt.1 hc
      rw [List.find?_cons_of_neg, ih x h]
      simp only [decide_eq_true_eq, not_le]
      exact lt_of_lt_of_le h hxz

theorem pyMinBy_find {α : Type} (key : α → ℚ) (x : α) (xs : List α) :
    (x :: xs).find? (fun y => decide (key y ≤ key (pyMinBy key x xs))) =
      some (pyMinBy key x xs) := by
  rcases pyMinBy_eq_or_lt key x xs with he | hlt
  · rw [he]
    rw [List.find?_cons_of_pos]
    simp
  · rw [List.find?_cons_of_neg, pyMinBy_find_aux key x xs hlt]
    simp only [decide_eq_true_eq, not_le]
    exact hlt

theorem pyMaxBy_cons {α : Type} (key : α → ℚ) (x z : α) (zs : List α) :
    pyMaxBy key x (z :: zs) = pyMaxBy key (if key x < key z then z else x) zs := rfl

theorem pyMaxBy_mem {α : Type} (key : α → ℚ) (x : α) (xs : List α) :
    pyMaxBy key x xs ∈ x :: xs := by
  induction xs generalizing x with
  | nil => simp [pyMaxBy]
  | cons z zs ih =>
    rw [pyMaxBy_cons]
    by_cases hc : key x < key z
    · have h := ih z
      rw [if_pos hc]
      simp only [List.mem_cons] at h ⊢
      tauto
    · have h := ih x
      rw [if_neg hc]
      simp only [List.mem_cons] at h ⊢
      tauto

theorem pyMaxBy_ge {α : Type} (key : α → ℚ) (x : α) (xs : List α) :
    ∀ y ∈ x :: xs, key y ≤ key (pyMaxBy key x xs) := by
  induction xs generalizing x with
  | nil =>
    intro y hy
    simp only [List.mem_cons, List.not_mem_nil, or_false] at hy
    subst hy
    simp [pyMaxBy]
  | cons z zs ih =>
    intro y hy
    rw [pyMaxBy_cons]
    by_cases hc : key x < key z
    · rw [if_pos hc]
      have hxz : key x ≤ key z := le_of_lt hc
      have hhead : key z ≤ key (pyMaxBy key z zs) := ih z z (List.mem_cons_self z zs)
      rcases List.mem_cons.1 hy with h1 | h1
      · exact h1 ▸ le_trans hxz hhead
      · rcases List.mem_cons.1 h1 with h2 | h2
        · exact h2 ▸ hhead
        · exact ih z y (List.mem_cons_of_mem z h2)
    · rw [if_neg hc]
      have hzx : key z ≤ key x := not_lt.1 hc
      have hhead : key x ≤ key (pyMaxBy key x zs) := ih x x (List.mem_cons_self x zs)
      rcases List.mem_cons.1 hy with h1 | h1
      · exact h1 ▸ hhead
      · rcases List.mem_cons.1 h1 with h2 | h2
        · exact h2 ▸ le_trans hzx hhead
        · exact ih x y (List.mem_cons_of_mem x h2)

/-! Claim theorems. -/

/-- C1: for every department in the built-in budget table and every requested
amount, `check_budget_availability` returns `approved = true` and
`shortfall = 0` exactly when the amount is at most the department's remaining
budget, and `approved = false` with `shortfall = amount - remaining` when the
amount exceeds the remaining budget. -/
theorem budget_check_approved_iff (d : String) (hd : d ∈ budget_table_departments)
    (amount : ℚ) :
    (amount ≤ (department_budgets d).remaining →
      (check_budget_availability d amount).approved = true ∧
      (check_budget_availability d amount).shortfall = 0) ∧
    ((department_budgets d).remaining < amount →
      (check_budget_availability d amount).approved = false ∧
      (check_budget_availability d amount).shortfall =
        amount - (department_budgets d).remaining) := by
  refine ⟨fun h => ⟨?_, ?_⟩, fun h => ⟨?_, ?_⟩⟩
  · simp [check_budget_availability, h]
  · simp only [check_budget_availability]
    exact max_eq_left (by linarith)
  · simp only [check_budget_availability, decide_eq_false_iff_not, not_le]
    exact h
  · simp only [check_budget_availability]
    exact max_eq_right (by linarith)

/-- Witness for C1 at department "IT" and amount 30000 (remaining is 27000). -/
theorem budget_check_approved_iff_witness :
    (check_budget_availability "IT" 30000).approved = false ∧
    (check_budget_availability "IT" 30000).shortfall = 3000 := by
  have h := (budget_check_approved_iff "IT" (by decide) 30000).2
    (by norm_num [department_budgets])
  refine ⟨h.1, ?_⟩
  rw [h.2]
  norm_num [department_budgets]

/-- C8: a department absent from the budget table yields the zero-budget
record with zero utilization, so every positive amount is not approved and
the shortfall equals the requested amount; the lookup is a total function
and never raises. -/
theorem unknown_department_zero_budget (d : String)
    (hd : d ∉ budget_table_departments) (amount : ℚ) :
    (check_budget_availability d amount).budget_status = ⟨0, 0, 0⟩ ∧
    (check_budget_availability d amount).utilization_rate = 0 ∧
    (0 < amount →
      (check_budget_availability d amount).approved = false ∧
      (check_budget_availability d amount).shortfall = amount) := by
  simp only [budget_table_departments, List.mem_cons, List.not_mem_nil, or_false,
    not_or] at hd
  have hb : department_budgets d = ⟨0, 0, 0⟩ := by
    simp [department_budgets, hd.1, hd.2.1, hd.2.2.1, hd.2.2.2.1, hd.2.2.2.2]
  refine ⟨?_, ?_, fun h => ⟨?_, ?_⟩⟩
  · simp [check_budget_availability, hb]
  · simp [check_budget_availability, hb]
  · simp only [check_budget_availability, hb, decide_eq_false_iff_not, not_le]
    exact h
  · simp only [check_budget_availability, hb]
    rw [sub_zero]
    exact max_eq_right (le_of_lt h)

/-- Witness for C8 at department "Sales" and amount 5. -/
theorem unknown_department_zero_budget_witness :
    (check_budget_availability "Sales" 5).budget_status = ⟨0, 0, 0⟩ ∧
    (check_budget_availability "Sales" 5).approved = false ∧
    (check_budget_availability "Sales" 5).shortfall = 5 := by
  have h := unknown_department_zero_budget "Sales" (by decide) 5
  exact ⟨h.1, (h.2.2 (by norm_num)).1, (h.2.2 (by norm_num)).2⟩

/-- Every row of the approval matrix, the default row included, has
`manager ≤ director ≤ vp`. -/
theorem approvalLimitsFor_increasing (d : String) :
    (approvalLimitsFor d).manager ≤ (approvalLimitsFor d).director ∧
    (approvalLimitsFor d).director ≤ (approvalLimitsFor d).vp := by
  unfold approvalLimitsFor
  split_ifs <;> norm_num

/-- C2: `check_approval_required` selects the tier by the strict ladder over
the department's limits, with the stated approval times, a department absent
from the matrix uses the default limits, and `auto_approved` holds exactly at
the Manager tier. -/
theorem approval_tier_ladder (d : String) (amount : ℚ) :
    (amount ≤ (approvalLimitsFor d).manager →
      (check_approval_required amount d).required_approval = "Manager" ∧
      (check_approval_required amount d).estimated_approval_time = "1-2 days") ∧
    ((approvalLimitsFor d).manager < amount → amount ≤ (approvalLimitsFor d).director →
      (check_approval_required amount d).required_approval = "Director" ∧
      (check_approval_required amount d).estimated_approval_time = "3-5 days") ∧
    ((approvalLimitsFor d).director < amount → amount ≤ (approvalLimitsFor d).vp →
      (check_approval_required amount d).required_approval = "VP" ∧
      (check_approval_required amount d).estimated_approval_time = "5-7 days") ∧
    ((approvalLimitsFor d).vp < amount →
      (check_approval_required amount d).required_approval = "CEO" ∧
      (check_approval_required amount d).estimated_approval_time = "7-14 days") ∧
    (d ∉ approval_matrix_departments →
      (check_approval_required amount d).approval_limits = ⟨1000, 5000, 15000⟩) ∧
    ((check_approval_required amount d).auto_approved = true ↔
      (check_approval_required amount d).required_approval = "Manager") := by
  obtain ⟨hmd, hdv⟩ := approvalLimitsFor_increasing d
  refine ⟨fun h1 => ?_, fun h1 h2 => ?_, fun h1 h2 => ?_, fun h1 => ?_, fun h => ?_, ?_⟩
  · simp [check_approval_required, h1]
  · simp [check_approval_required, h2, not_le.2 h1]
  · have hm : ¬ amount ≤ (approvalLimitsFor d).manager := not_le.2 (lt_of_le_of_lt hmd h1)
    simp [check_approval_required, h2, not_le.2 h1, hm]
  · have hd2 : ¬ amount ≤ (approvalLimitsFor d).director :=
      not_le.2 (lt_of_le_of_lt hdv h1)
    have hm : ¬ amount ≤ (approvalLimitsFor d).manager :=
      not_le.2 (lt_of_le_of_lt (le_trans hmd hdv) h1)
    simp [check_approval_required, not_le.2 h1, hd2, hm]
  · simp only [approval_matrix_departments, List.mem_cons, List.not_mem_nil, or_false,
      not_or] at h
    simp [check_approval_required, approvalLimitsFor, h.1, h.2.1, h.2.2.1, h.2.2.2.1,
      h.2.2.2.2]
  · by_cases h : amount ≤ (approvalLimitsFor d).manager
    · simp [check_approval_required, h]
    · simp only [check_approval_required, decide_eq_true_eq]
      constructor
      · intro hcon
        exact absurd hcon h
      · intro hcon
        rw [if_neg h] at hcon
        exfalso
        revert hcon
        split_ifs <;> decide

/-- Witness for C2 at the unknown department "Sales" and amount 3000
(default limits, Director tier). -/
theorem approval_tier_ladder_witness :
    (check_approval_required 3000 "Sales").required_approval = "Director" ∧
    (check_approval_required 3000 "Sales").approval_limits = ⟨1000, 5000, 15000⟩ := by
  have h := approval_tier_ladder "Sales" 3000
  refine ⟨?_, h.2.2.2.2.1 (by decide)⟩
  have hdef := h.2.2.2.2.1 (by decide)
  exact (h.2.1 (by rw [show (check_approval_required 3000 "Sales").approval_limits =
      approvalLimitsFor "Sales" from rfl] at hdef; rw [hdef]; norm_num)
    (by rw [show (check_approval_required 3000 "Sales").approval_limits =
      approvalLimitsFor "Sales" from rfl] at hdef; rw [hdef]; norm_num)).1

/-- C3: the four-branch `_determine_status` of the source is extensionally
equal to the simplified three-case rule of the specification, for every
combination of budget-check, approval-check and inventory-check results. -/
theorem determine_status_eq_simplified (budget : BudgetCheckResult)
    (approval : ApprovalCheckResult) (inventory : InventoryCheckResult) :
    determine_status budget approval inventory = simplified_status budget approval := by
  unfold determine_status simplified_status
  cases hb : budget.approved <;> cases ha : approval.auto_approved <;>
    cases hi : inventory.reorder_needed <;> simp

/-- C6: for a fixed department the required approval tier is monotone in the
amount, in the order Manager < Director < VP < CEO. -/
theorem approval_tier_monotone (d : String) (a1 a2 : ℚ) (h : a1 ≤ a2) :
    tierRank (check_approval_required a1 d).required_approval ≤
      tierRank (check_approval_required a2 d).required_approval := by
  simp only [check_approval_required]
  split_ifs <;> simp [tierRank] <;> linarith

/-- Witness for C6 at department "IT" with amounts 1 and 20000. -/
theorem approval_tier_monotone_witness :
    tierRank (check_approval_required 1 "IT").required_approval ≤
      tierRank (check_approval_required 20000 "IT").required_approval :=
  approval_tier_monotone "IT" 1 20000 (by norm_num)

/-- C7: `check_inventory` returns
`reorder_needed = (current + on_order < minimum)` and
`suggested_order_quantity = max 0 (minimum - current - on_order)`; the stock
level percentage lies in [0, 100] whenever `current <= maximum`, is 0 when
`maximum = 0`, and an item absent from the inventory table yields the
all-zero record and hence stock status "Adequate". -/
theorem check_inventory_spec (item : String) :
    ((check_inventory item).reorder_needed =
      decide ((check_inventory item).current_stock + (check_inventory item).on_order <
        (check_inventory item).minimum_required)) ∧
    ((check_inventory item).suggested_order_quantity =
      max 0 (((check_inventory item).minimum_required : ℤ) -
        (check_inventory item).current_stock - (check_inventory item).on_order)) ∧
    ((check_inventory item).current_stock ≤ (check_inventory item).maximum_capacity →
      0 ≤ (check_inventory item).stock_level_percentage ∧
      (check_inventory item).stock_level_percentage ≤ 100) ∧
    ((check_inventory item).maximum_capacity = 0 →
      (check_inventory item).stock_level_percentage = 0) ∧
    (pyLower item ∉ inventory_db_items →
      (check_inventory item).current_stock = 0 ∧
      (check_inventory item).minimum_required = 0 ∧
      (check_inventory item).maximum_capacity = 0 ∧
      (check_inventory item).on_order = 0 ∧
      (check_inventory item).stock_status = "Adequate") := by
  refine ⟨rfl, rfl, fun h => ?_, fun h => ?_, fun h => ?_⟩
  · simp only [check_inventory] at h ⊢
    by_cases hmax : 0 < (inventory_db (pyLower item)).maximum
    · rw [if_pos hmax]
      have hpos : (0 : ℚ) < ((inventory_db (pyLower item)).maximum : ℚ) := by
        exact_mod_cast hmax
      have hle : ((inventory_db (pyLower item)).current : ℚ) ≤
          ((inventory_db (pyLower item)).maximum : ℚ) := by exact_mod_cast h
      have hdiv : ((inventory_db (pyLower item)).current : ℚ) /
          ((inventory_db (pyLower item)).maximum : ℚ) ≤ 1 := by
        rw [div_le_one hpos]
        exact hle
      constructor
      · positivity
      · nlinarith
    · rw [if_neg hmax]
      norm_num
  · simp only [check_inventory] at h ⊢
    simp [h]
  · simp only [inventory_db_items, List.mem_cons, List.not_mem_nil, or_false,
      not_or] at h
    have hb : inventory_db (pyLower item) = ⟨0, 0, 0, 0⟩ := by
      simp [inventory_db, h.1, h.2.1, h.2.2.1, h.2.2.2]
    simp [check_inventory, hb]

/-- Witness for C7 at the unknown item "widgets". -/
theorem check_inventory_spec_witness :
    (check_inventory "widgets").stock_status = "Adequate" ∧
    (check_inventory "widgets").current_stock = 0 ∧
    0 ≤ (check_inventory "widgets").stock_level_percentage := by
  have h := check_inventory_spec "widgets"
  exact ⟨(h.2.2.2.2 (by decide)).2.2.2.2, (h.2.2.2.2 (by decide)).1,
    (h.2.2.1 (by decide)).1⟩

/-- C9 (counterexample): the claim is false as stated: for department "IT"
and amount 10000 the remaining budget after lookup is 27000, not 17000
(17000 is the Marketing row). -/
theorem it_example_counterexample :
    ¬ ((check_budget_availability "IT" 10000).approved = true ∧
       (check_budget_availability "IT" 10000).budget_status.remaining = 17000 ∧
       (check_approval_required 10000 "IT").required_approval = "Director") := by
  decide

/-- C9 (amended): for department "IT" and amount 10000 the budget check
approves, the remaining budget after lookup is 27000, and the required tier
is "Director", the IT limits being manager 5000 and director 15000 with
5000 < 10000 <= 15000. -/
theorem it_example_amended :
    (check_budget_availability "IT" 10000).approved = true ∧
    (check_budget_availability "IT" 10000).budget_status.remaining = 27000 ∧
    (check_approval_required 10000 "IT").required_approval = "Director" ∧
    (check_approval_required 10000 "IT").approval_limits.manager = 5000 ∧
    (check_approval_required 10000 "IT").approval_limits.director = 15000 := by
  decide

/-- C4: when the quantity exceeds the availability of every offer in the
item's catalog (vacuously for items absent from the catalog),
`find_suppliers` returns an empty supplier list with zero count, and
`optimize_cost` on that empty list returns the explicit error value. -/
theorem no_supplier_error (item : String) (quantity : ℕ)
    (h : ∀ s ∈ suppliers_db (pyLower item), s.availability < quantity) :
    (find_suppliers item quantity).suppliers = [] ∧
    (find_suppliers item quantity).total_suppliers_found = 0 ∧
    optimize_cost (find_suppliers item quantity).suppliers quantity =
      .error "No suppliers available" := by
  have he : (suppliers_db (pyLower item)).filter
      (fun s => decide (quantity ≤ s.availability)) = [] := by
    rw [List.filter_eq_nil_iff]
    intro s hs
    simp only [decide_eq_true_eq, not_le]
    exact h s hs
  have h1 : (find_suppliers item quantity).suppliers = [] := by
    simp only [find_suppliers]
    exact he
  refine ⟨h1, ?_, ?_⟩
  · simp only [find_suppliers]
    rw [he]
    rfl
  · rw [h1]
    rfl

/-- Witness for C4 at item "laptops" and quantity 101 (largest availability
in the laptop catalog is 100). -/
theorem no_supplier_error_witness :
    (find_suppliers "laptops" 101).suppliers = [] ∧
    (find_suppliers "laptops" 101).total_suppliers_found = 0 ∧
    optimize_cost (find_suppliers "laptops" 101).suppliers 101 =
      .error "No suppliers available" :=
  no_supplier_error "laptops" 101 (by decide)

/-- Every row of the budget table, the zero default row included, has a
nonnegative remaining budget. -/
theorem department_budgets_remaining_nonneg (d : String) :
    (0 : ℚ) ≤ (department_budgets d).remaining := by
  unfold department_budgets
  split_ifs <;> norm_num

/-- Every row of the approval matrix, the default row included, has a
nonnegative manager limit. -/
theorem approvalLimitsFor_manager_nonneg (d : String) :
    (0 : ℚ) ≤ (approvalLimitsFor d).manager := by
  unfold approvalLimitsFor
  split_ifs <;> norm_num

/-- C10: for a request with no suitable supplier, `process_request`
substitutes 0 for the total cost in both the budget check and the approval
check, so the budget is approved, the Manager tier is auto-approved, and the
overall status is "approved" for every department in the budget table. -/
theorem no_supplier_overall_approved (request : ProcurementRequest)
    (hs : (find_suppliers request.item request.quantity).suppliers = [])
    (hd : request.department ∈ budget_table_departments) :
    (process_request request).cost_optimization = .error "No suppliers available" ∧
    (process_request request).budget_validation.requested_amount = 0 ∧
    (process_request request).approval_requirements.amount = 0 ∧
    (process_request request).budget_validation.approved = true ∧
    (process_request request).approval_requirements.auto_approved = true ∧
    (process_request request).approval_requirements.required_approval = "Manager" ∧
    (process_request request).overall_status = "approved" := by
  have hc : optimize_cost (find_suppliers request.item request.quantity).suppliers
      request.quantity = .error "No suppliers available" := by
    rw [hs]
    rfl
  have ht : totalCostOrZero (optimize_cost
      (find_suppliers request.item request.quantity).suppliers request.quantity) = 0 := by
    rw [hc]
    rfl
  have hrem := department_budgets_remaining_nonneg request.department
  have hman := approvalLimitsFor_manager_nonneg request.department
  refine ⟨?_, ?_, ?_, ?_, ?_, ?_, ?_⟩
  · simp only [process_request]
    exact hc
  · simp only [process_request, check_budget_availability]
    exact ht
  · simp only [process_request, check_approval_required]
    exact ht
  · simp only [process_request, check_budget_availability, ht]
    simpa using hrem
  · simp only [process_request, check_approval_required, ht]
    simpa using hman
  · simp only [process_request, check_approval_required, ht]
    rw [if_pos hman]
  · simp only [process_request, determine_status, check_budget_availability,
      check_approval_required, ht]
    rw [decide_eq_true hrem, decide_eq_true hman]
    cases hi : (check_inventory request.item).reorder_needed <;> simp

/-- Witness for C10 at the request (item "laptops", quantity 101,
department "IT"). -/
theorem no_supplier_overall_approved_witness :
    (process_request ⟨"laptops", 101, "IT"⟩).cost_optimization =
      .error "No suppliers available" ∧
    (process_request ⟨"laptops", 101, "IT"⟩).budget_validation.requested_amount = 0 ∧
    (process_request ⟨"laptops", 101, "IT"⟩).approval_requirements.auto_approved = true ∧
    (process_request ⟨"laptops", 101, "IT"⟩).overall_status = "approved" := by
  have h := no_supplier_overall_approved ⟨"laptops", 101, "IT"⟩ (by decide) (by decide)
  exact ⟨h.1, h.2.1, h.2.2.2.2.1, h.2.2.2.2.2.2⟩

/-- C5: on a non-empty supplier list, `optimize_cost` recommends the first
offer minimizing price divided by rating (membership, minimality, and the
first-minimum property stated through `List.find?`), charges that offer's
price times the quantity, and reports potential savings of the maximum
price among the offers minus the chosen price, times the quantity. -/
theorem optimize_cost_first_min (x : SupplierOffer) (xs : List SupplierOffer)
    (quantity : ℕ) :
    ∃ b m : SupplierOffer,
      b ∈ x :: xs ∧ m ∈ x :: xs ∧
      (∀ y ∈ x :: xs, priceOverRating b ≤ priceOverRating y) ∧
      (x :: xs).find? (fun y => decide (priceOverRating y ≤ priceOverRating b)) = some b ∧
      (∀ y ∈ x :: xs, y.price ≤ m.price) ∧
      optimize_cost (x :: xs) quantity =
        .ok { recommended_supplier := b.name
              unit_price := b.price
              total_cost := b.price * quantity
              quantity := quantity
              potential_savings := (m.price - b.price) * quantity
              lead_time := b.lead_time
              supplier_rating := b.rating } :=
  ⟨pyMinBy priceOverRating x xs, pyMaxBy (fun s => s.price) x xs,
   pyMinBy_mem priceOverRating x xs, pyMaxBy_mem (fun s => s.price) x xs,
   pyMinBy_le priceOverRating x xs, pyMinBy_find priceOverRating x xs,
   pyMaxBy_ge (fun s => s.price) x xs, rfl⟩
